import Mathlib

/-!
Verification development for a small hospital-management web application
(Flask + SQLite).  The embedding below translates the data model
(`app/models.py`) and the request handlers (`app/routes.py`) into pure
Lean definitions: the relational store is a record of lists, each handler
is a function from a store (plus request data) to a result and a new
store, and Python `datetime` values are modelled by a naive seven-field
record.  Timezone-aware ISO strings (offset suffixes) are not modelled:
such inputs are treated as unparsable, matching the scope of the
properties checked here, all of which concern naive datetimes.
-/

namespace HMS

/-- Naive Python `datetime.datetime`: year/month/day hour/minute/second
and microsecond.  No tzinfo (see module comment). -/
structure DateTime where
  year : Nat
  month : Nat
  day : Nat
  hour : Nat
  minute : Nat
  second : Nat
  microsecond : Nat
deriving DecidableEq, Repr

/-- Gregorian leap-year rule used by `datetime`. -/
def isLeapYear (y : Nat) : Bool :=
  y % 4 == 0 && (y % 100 != 0 || y % 400 == 0)

/-- Days in a month, as validated by the `datetime` constructor. -/
def daysInMonth (y mo : Nat) : Nat :=
  if mo == 2 then (if isLeapYear y then 29 else 28)
  else if mo == 4 || mo == 6 || mo == 9 || mo == 11 then 30
  else 31

/-- Field bounds enforced by the `datetime.datetime` constructor
(`MINYEAR = 1`, `MAXYEAR = 9999`); out-of-range fields raise
`ValueError` in Python, which the callers modelled below turn into
parse failure. -/
def DateTime.valid (dt : DateTime) : Bool :=
  1 ≤ dt.year && dt.year ≤ 9999 &&
  1 ≤ dt.month && dt.month ≤ 12 &&
  1 ≤ dt.day && dt.day ≤ daysInMonth dt.year dt.month &&
  dt.hour ≤ 23 && dt.minute ≤ 59 && dt.second ≤ 59 &&
  dt.microsecond ≤ 999999

/-- Second-granularity order key.  For valid datetimes (bounded fields)
this encoding is order-isomorphic to Python's componentwise
(lexicographic) comparison with the microsecond field ignored. -/
def DateTime.keySec (dt : DateTime) : Nat :=
  ((((dt.year * 100 + dt.month) * 100 + dt.day) * 100 + dt.hour) * 100
    + dt.minute) * 100 + dt.second

/-- Full order key: Python's `datetime` comparison includes the
microsecond field as the least-significant component. -/
def DateTime.key (dt : DateTime) : Nat :=
  dt.keySec * 1000000 + dt.microsecond

/-- Python truthiness of a parse result plus the range check reduces to
comparisons on `key`; `dtLe a b` models `a <= b` on naive datetimes. -/
def dtLe (a b : DateTime) : Bool := a.key ≤ b.key

/-- `datetime(...)` validation step shared by the parsing paths: Python
raises `ValueError` on out-of-range fields, surfaced as `none` here. -/
def validate (dt : DateTime) : Option DateTime :=
  if dt.valid then some dt else none

/-- Numeric value of a decimal digit character. -/
def dval (c : Char) : Nat := c.toNat - 48

/-- Exactly four decimal digits (the `%Y` directive of `strptime` and
the year field of `fromisoformat`). -/
def parse4Digits : List Char → Option (Nat × List Char)
  | a :: b :: c :: d :: rest =>
    if a.isDigit && b.isDigit && c.isDigit && d.isDigit then
      some (1000 * dval a + 100 * dval b + 10 * dval c + dval d, rest)
    else none
  | _ => none

/-- Exactly two decimal digits (`fromisoformat` fields). -/
def parse2Digits : List Char → Option (Nat × List Char)
  | a :: b :: rest =>
    if a.isDigit && b.isDigit then some (10 * dval a + dval b, rest)
    else none
  | _ => none

/-- A required literal character in a format. -/
def lit (c : Char) : List Char → Option (List Char)
  | x :: rest => if x == c then some rest else none
  | [] => none

/-- Candidate matches for the `strptime` directive `%m`, in the priority
order of CPython's regex `1[0-2]|0[1-9]|[1-9]` (two-digit alternatives
before the one-digit fallback). -/
def monthCands : List Char → List (Nat × List Char)
  | [] => []
  | c :: rest =>
    if !c.isDigit then []
    else
      let v := dval c
      let two := match rest with
        | c2 :: rest2 =>
          if c2.isDigit then
            let w := 10 * v + dval c2
            if (v == 1 && w ≤ 12) || (v == 0 && 1 ≤ dval c2) then [(w, rest2)] else []
          else []
        | [] => []
      let one := if 1 ≤ v then [(v, rest)] else []
      two ++ one

/-- Candidates for `%d`, regex `3[01]|[12]\d|0[1-9]|[1-9]`. -/
def dayCands : List Char → List (Nat × List Char)
  | [] => []
  | c :: rest =>
    if !c.isDigit then []
    else
      let v := dval c
      let two := match rest with
        | c2 :: rest2 =>
          if c2.isDigit then
            let w := 10 * v + dval c2
            if (v == 3 && dval c2 ≤ 1) || v == 1 || v == 2 || (v == 0 && 1 ≤ dval c2) then
              [(w, rest2)]
            else []
          else []
        | [] => []
      let one := if 1 ≤ v then [(v, rest)] else []
      two ++ one

/-- Candidates for `%H`, regex `2[0-3]|[0-1]\d|\d`. -/
def hourCands : List Char → List (Nat × List Char)
  | [] => []
  | c :: rest =>
    if !c.isDigit then []
    else
      let v := dval c
      let two := match rest with
        | c2 :: rest2 =>
          if c2.isDigit then
            if (v == 2 && dval c2 ≤ 3) || v ≤ 1 then [(10 * v + dval c2, rest2)] else []
          else []
        | [] => []
      two ++ [(v, rest)]

/-- Candidates for `%M` and `%S`, regex `[0-5]\d|\d`. -/
def minSecCands : List Char → List (Nat × List Char)
  | [] => []
  | c :: rest =>
    if !c.isDigit then []
    else
      let v := dval c
      let two := match rest with
        | c2 :: rest2 => if c2.isDigit && v ≤ 5 then [(10 * v + dval c2, rest2)] else []
        | [] => []
      two ++ [(v, rest)]

/-- Regex-style backtracking over the candidate list of one directive. -/
def tryEach {α : Type} (cands : List (Nat × List Char)) (k : Nat → List Char → Option α) :
    Option α :=
  match cands with
  | [] => none
  | (v, rest) :: more =>
    match k v rest with
    | some r => some r
    | none => tryEach more k

/-- Structural match of `"%Y-%m-%d %H:%M:%S"` against the whole input
(`strptime` fails on unconverted trailing data). -/
def strptimeYmdHmsStruct (s : String) : Option DateTime :=
  match parse4Digits s.data with
  | none => none
  | some (y, r1) =>
    match lit '-' r1 with
    | none => none
    | some r2 =>
      tryEach (monthCands r2) (fun mo r3 =>
        match lit '-' r3 with
        | none => none
        | some r4 =>
          tryEach (dayCands r4) (fun d r5 =>
            match lit ' ' r5 with
            | none => none
            | some r6 =>
              tryEach (hourCands r6) (fun h r7 =>
                match lit ':' r7 with
                | none => none
                | some r8 =>
                  tryEach (minSecCands r8) (fun mi r9 =>
                    match lit ':' r9 with
                    | none => none
                    | some r10 =>
                      tryEach (minSecCands r10) (fun sec r11 =>
                        if r11.isEmpty then some ⟨y, mo, d, h, mi, sec, 0⟩ else none)))))

/-- Structural match of `"%Y-%m-%d %H:%M"`. -/
def strptimeYmdHmStruct (s : String) : Option DateTime :=
  match parse4Digits s.data with
  | none => none
  | some (y, r1) =>
    match lit '-' r1 with
    | none => none
    | some r2 =>
      tryEach (monthCands r2) (fun mo r3 =>
        match lit '-' r3 with
        | none => none
        | some r4 =>
          tryEach (dayCands r4) (fun d r5 =>
            match lit ' ' r5 with
            | none => none
            | some r6 =>
              tryEach (hourCands r6) (fun h r7 =>
                match lit ':' r7 with
                | none => none
                | some r8 =>
                  tryEach (minSecCands r8) (fun mi r9 =>
                    if r9.isEmpty then some ⟨y, mo, d, h, mi, 0, 0⟩ else none))))

/-- `datetime.strptime(s, "%Y-%m-%d %H:%M:%S")`: first the regex picks
its unique leftmost/priority match, then the `datetime` constructor
validates the fields (`ValueError` on either step means failure). -/
def strptimeYmdHms (s : String) : Option DateTime :=
  match strptimeYmdHmsStruct s with
  | some dt => validate dt
  | none => none

/-- `datetime.strptime(s, "%Y-%m-%d %H:%M")`. -/
def strptimeYmdHm (s : String) : Option DateTime :=
  match strptimeYmdHmStruct s with
  | some dt => validate dt
  | none => none

/-- Value of a list of decimal digits. -/
def digitsVal (l : List Char) : Nat := l.foldl (fun acc c => 10 * acc + dval c) 0

/-- Time-of-day part of `datetime.fromisoformat`:
`HH[:MM[:SS[.fff or .ffffff]]]`, two-digit fields, fraction of exactly
three or six digits.  A trailing UTC-offset suffix is not modelled and
yields `none` (module comment). -/
def isoTime (y mo d : Nat) (cs : List Char) : Option DateTime :=
  match parse2Digits cs with
  | none => none
  | some (h, r1) =>
    match r1 with
    | [] => validate ⟨y, mo, d, h, 0, 0, 0⟩
    | ':' :: r2 =>
      match parse2Digits r2 with
      | none => none
      | some (mi, r3) =>
        match r3 with
        | [] => validate ⟨y, mo, d, h, mi, 0, 0⟩
        | ':' :: r4 =>
          match parse2Digits r4 with
          | none => none
          | some (sec, r5) =>
            match r5 with
            | [] => validate ⟨y, mo, d, h, mi, sec, 0⟩
            | '.' :: r6 =>
              if r6.length == 3 && r6.all Char.isDigit then
                validate ⟨y, mo, d, h, mi, sec, digitsVal r6 * 1000⟩
              else if r6.length == 6 && r6.all Char.isDigit then
                validate ⟨y, mo, d, h, mi, sec, digitsVal r6⟩
              else none
            | _ => none
        | _ => none
    | _ => none

/-- `datetime.fromisoformat`: a `YYYY-MM-DD` date, optionally followed
by a single separator character (any character) and a time-of-day. -/
def fromisoformat (s : String) : Option DateTime :=
  match parse4Digits s.data with
  | none => none
  | some (y, r1) =>
    match lit '-' r1 with
    | none => none
    | some r2 =>
      match parse2Digits r2 with
      | none => none
      | some (mo, r3) =>
        match lit '-' r3 with
        | none => none
        | some r4 =>
          match parse2Digits r4 with
          | none => none
          | some (d, r5) =>
            match r5 with
            | [] => validate ⟨y, mo, d, 0, 0, 0, 0⟩
            | _sep :: timeRest => isoTime y mo d timeRest

/-- `parse_datetime` from `app/routes.py`: ISO parsing when the string
contains `'T'`, otherwise the two fixed `strptime` patterns in order;
every failure path is caught and returns `None`. -/
def parse_datetime (dtStr : String) : Option DateTime :=
  if dtStr.data.contains 'T' then fromisoformat dtStr
  else
    match strptimeYmdHms dtStr with
    | some dt => some dt
    | none => strptimeYmdHm dtStr

/-- Character list of `dt.strftime('%Y-%m-%d %H:%M:%S')`: every field
zero-padded to fixed width, microseconds dropped. -/
def dtChars (dt : DateTime) : List Char :=
  Nat.digitChar (dt.year / 100 / 10) :: Nat.digitChar (dt.year / 100 % 10) ::
  Nat.digitChar (dt.year % 100 / 10) :: Nat.digitChar (dt.year % 100 % 10) :: '-' ::
  Nat.digitChar (dt.month / 10) :: Nat.digitChar (dt.month % 10) :: '-' ::
  Nat.digitChar (dt.day / 10) :: Nat.digitChar (dt.day % 10) :: ' ' ::
  Nat.digitChar (dt.hour / 10) :: Nat.digitChar (dt.hour % 10) :: ':' ::
  Nat.digitChar (dt.minute / 10) :: Nat.digitChar (dt.minute % 10) :: ':' ::
  Nat.digitChar (dt.second / 10) :: Nat.digitChar (dt.second % 10) :: []

/-- `dt.strftime('%Y-%m-%d %H:%M:%S')`. -/
def DateTime.strftime (dt : DateTime) : String := String.mk (dtChars dt)

/-- Byte-wise (memcmp-style) lexicographic `≤` on character lists: the
collation SQLite applies to `TEXT` comparisons of the stored ASCII
timestamp strings. -/
def charListLe : List Char → List Char → Bool
  | [], _ => true
  | _ :: _, [] => false
  | c :: cs, d :: ds => c.toNat < d.toNat || (c.toNat == d.toNat && charListLe cs ds)

/-- SQL `<=` on the stored text columns. -/
def strLe (s t : String) : Bool := charListLe s.data t.data

/-- `str.strip()`: whitespace removed from both ends. -/
def pyStrip (s : String) : String :=
  String.mk (((s.data.dropWhile Char.isWhitespace).reverse.dropWhile Char.isWhitespace).reverse)

/-- Werkzeug `generate_password_hash`, modelled as an opaque injective
tagging of the plaintext (the spec treats hashing as an external
collaborator with contract `hash`/`verify`). -/
def generate_password_hash (pw : String) : String := String.mk ('#' :: pw.data)

/-- Werkzeug `check_password_hash`-based `User.check_password`. -/
def check_password_hash (pw stored : String) : Bool := stored == generate_password_hash pw

/-- Row of the `users` table (`app/models.py`, class `User`). -/
structure User where
  id : Nat
  username : String
  email : String
  password_hash : String
  full_name : String
  role : String
deriving DecidableEq, Repr

/-- Row of the `doctors` table (class `Doctor`); department,
specialization and contact carry no behaviour in the checked claims. -/
structure Doctor where
  id : Nat
  user_id : Nat
  is_active : Bool
  is_approved : Bool
deriving DecidableEq, Repr

/-- Row of the `patients` table (class `Patient`). -/
structure Patient where
  id : Nat
  user_id : Nat
deriving DecidableEq, Repr

/-- Row of the `appointments` table (class `Appointment`): start and
end are stored as TEXT columns. -/
structure Appointment where
  id : Nat
  patient_id : Nat
  doctor_id : Nat
  start_datetime : String
  end_datetime : String
  reason : String
  status : String
deriving DecidableEq, Repr

/-- Row of the `treatments` table (class `Treatment`). -/
structure Treatment where
  id : Nat
  appointment_id : Nat
  diagnosis : String
  prescription : String
deriving DecidableEq, Repr

/-- The relational store: one list per table, in insertion order, plus
autoincrement counters. -/
structure Store where
  users : List User
  doctors : List Doctor
  patients : List Patient
  appointments : List Appointment
  treatments : List Treatment
  nextUserId : Nat
  nextDoctorId : Nat
  nextPatientId : Nat
  nextAppointmentId : Nat
  nextTreatmentId : Nat
deriving DecidableEq, Repr

/-- `User.query.filter(or_(User.username == x, User.email == x)).first()`. -/
def find_user (st : Store) (identifier : String) : Option User :=
  st.users.find? (fun u => u.username == identifier || u.email == identifier)

/-- `user.doctor_profile` (1:1 relationship keyed on `user_id`). -/
def doctor_profile (st : Store) (uid : Nat) : Option Doctor :=
  st.doctors.find? (fun d => d.user_id == uid)

/-- `user.patient_profile`. -/
def patient_profile (st : Store) (uid : Nat) : Option Patient :=
  st.patients.find? (fun p => p.user_id == uid)

/-- Outcome of the `login` handler, one constructor per user-visible
flash message / redirect. -/
inductive LoginResult
  | invalidCredentials
  | doctorProfileMissing
  | pendingApproval
  | deactivated
  | success (userId : Nat) (role : String)
deriving DecidableEq, Repr

/-- The `login` route (`app/routes.py`): identifier matched against
username or email; a missing user and a failing credential check share
one generic rejection; doctors are additionally gated on an existing
profile, `is_approved`, and `is_active`. -/
def login (st : Store) (identifier password : String) : LoginResult :=
  let identifier := pyStrip identifier
  match find_user st identifier with
  | none => .invalidCredentials
  | some u =>
    if !check_password_hash password u.password_hash then .invalidCredentials
    else if u.role == "doctor" then
      match doctor_profile st u.id with
      | none => .doctorProfileMissing
      | some d =>
        if !d.is_approved then .pendingApproval
        else if !d.is_active then .deactivated
        else .success u.id u.role
    else .success u.id u.role

/-- Outcome of the `register` handler. -/
inductive RegisterResult
  | success
  | duplicate
deriving DecidableEq, Repr

/-- The `register` route: uniqueness pre-check on stripped
username/email, then the `User` row (role `patient`, hashed credential)
and its `Patient` profile are inserted in one transaction. -/
def register (st : Store) (username email password full_name : String) :
    RegisterResult × Store :=
  let username := pyStrip username
  let email := pyStrip email
  let full_name := pyStrip full_name
  if (st.users.find? (fun u => u.username == username || u.email == email)).isSome then
    (.duplicate, st)
  else
    let uid := st.nextUserId
    let user : User :=
      { id := uid, username := username, email := email,
        password_hash := generate_password_hash password,
        full_name := full_name, role := "patient" }
    let patient : Patient := { id := st.nextPatientId, user_id := uid }
    (.success,
      { st with
        users := st.users ++ [user],
        patients := st.patients ++ [patient],
        nextUserId := uid + 1,
        nextPatientId := st.nextPatientId + 1 })

/-- The SQL range predicate of the booking conflict query:
`NOT (end_datetime <= start_str OR start_datetime >= end_str)`,
evaluated on the TEXT columns. -/
def overlapsStr (e : Appointment) (startStr endStr : String) : Bool :=
  !(strLe e.end_datetime startStr || strLe endStr e.start_datetime)

/-- Outcome of the `book_appointment` handler.  `internalError` stands
for the unhandled exception raised when a patient-role user has no
`Patient` profile row. -/
inductive BookResult
  | accessDenied
  | doctorNotFound
  | invalidTimeRange
  | slotConflict
  | booked
  | internalError
deriving DecidableEq, Repr

/-- The `book_appointment` route: role gate, profile and doctor lookup
(`get_or_404`), parse and order validation, string-level conflict query
over the doctor's `Booked` rows, then insertion of the new `Booked`
row with both instants rendered by `'%Y-%m-%d %H:%M:%S'`. -/
def book_appointment (st : Store) (caller : User) (doctor_id : Nat)
    (startRaw endRaw reason : String) : BookResult × Store :=
  if caller.role != "patient" then (.accessDenied, st)
  else
    match patient_profile st caller.id with
    | none => (.internalError, st)
    | some patient =>
      match st.doctors.find? (fun d => d.id == doctor_id) with
      | none => (.doctorNotFound, st)
      | some doctor =>
        match parse_datetime startRaw, parse_datetime endRaw with
        | some start_dt, some end_dt =>
          if dtLe end_dt start_dt then (.invalidTimeRange, st)
          else
            let start_str := start_dt.strftime
            let end_str := end_dt.strftime
            match st.appointments.find? (fun a =>
                a.doctor_id == doctor.id && a.status == "Booked" &&
                overlapsStr a start_str end_str) with
            | some _ => (.slotConflict, st)
            | none =>
              let appt : Appointment :=
                { id := st.nextAppointmentId, patient_id := patient.id,
                  doctor_id := doctor.id, start_datetime := start_str,
                  end_datetime := end_str, reason := reason, status := "Booked" }
              (.booked,
                { st with
                  appointments := st.appointments ++ [appt],
                  nextAppointmentId := st.nextAppointmentId + 1 })
        | _, _ => (.invalidTimeRange, st)

/-- Outcome of the `complete_appointment` handler (POST).
`internalError` stands for the unhandled exception raised when a
doctor-role user has no `Doctor` profile row. -/
inductive CompleteResult
  | accessDenied
  | notFound
  | notAuthorized
  | completed
  | internalError
deriving DecidableEq, Repr

/-- The `complete_appointment` route on a POST submission: role gate,
`get_or_404` on the appointment, ownership check against the caller's
`Doctor` profile, then the status flip to `Completed` and the new
`Treatment` row committed together. -/
def complete_appointment (st : Store) (caller : User) (appointment_id : Nat)
    (diagnosis prescription : String) : CompleteResult × Store :=
  if caller.role != "doctor" then (.accessDenied, st)
  else
    match st.appointments.find? (fun a => a.id == appointment_id) with
    | none => (.notFound, st)
    | some appt =>
      match doctor_profile st caller.id with
      | none => (.internalError, st)
      | some doc =>
        if appt.doctor_id != doc.id then (.notAuthorized, st)
        else
          let t : Treatment :=
            { id := st.nextTreatmentId, appointment_id := appt.id,
              diagnosis := diagnosis, prescription := prescription }
          (.completed,
            { st with
              appointments := st.appointments.map (fun a =>
                if a.id == appointment_id then { a with status := "Completed" } else a),
              treatments := st.treatments ++ [t],
              nextTreatmentId := st.nextTreatmentId + 1 })

/-- Modelled from the spec: the administrator action that sets a
doctor's `is_approved` flag (spec §3 — mutated only by administrator
actions, not exposed in the current route set).  It changes nothing
but the flag on the doctor rows of the given user. -/
def approveDoctor (st : Store) (uid : Nat) : Store :=
  { st with
    doctors := st.doctors.map (fun d =>
      if d.user_id == uid then { d with is_approved := true } else d) }

/-! ### Sample data used by witnesses and counterexamples -/

/-- Sample patient identity. -/
def exPatientUser : User :=
  ⟨1, "alice", "alice@example.com", generate_password_hash "pw1", "Alice A", "patient"⟩

/-- Sample doctor identity. -/
def exDoctorUser : User :=
  ⟨2, "drbob", "bob@example.com", generate_password_hash "pw2", "Bob B", "doctor"⟩

/-- Sample approved, active doctor profile owned by `exDoctorUser`. -/
def exDoctor : Doctor := ⟨1, 2, true, true⟩

/-- Sample patient profile owned by `exPatientUser`. -/
def exPatient : Patient := ⟨1, 1⟩

/-- A stored `Booked` appointment of doctor 1: 09:30–10:00. -/
def exAppt : Appointment :=
  ⟨1, 1, 1, "2024-01-10 09:30:00", "2024-01-10 10:00:00", "checkup", "Booked"⟩

/-- Store with one booked appointment. -/
def exStore : Store :=
  ⟨[exPatientUser, exDoctorUser], [exDoctor], [exPatient], [exAppt], [], 3, 2, 2, 2, 1⟩

/-- Store with no appointments. -/
def exStoreEmpty : Store :=
  ⟨[exPatientUser, exDoctorUser], [exDoctor], [exPatient], [], [], 3, 2, 2, 2, 1⟩

/-- A second doctor identity, owner of no appointment in the samples. -/
def exDoctorUser2 : User :=
  ⟨3, "dreve", "eve@example.com", generate_password_hash "pw4", "Eve E", "doctor"⟩

/-- Profile of the second doctor. -/
def exDoctor2 : Doctor := ⟨2, 3, true, true⟩

/-- Store with two doctors; the stored appointment belongs to doctor 1. -/
def exStore2 : Store :=
  ⟨[exPatientUser, exDoctorUser, exDoctorUser2], [exDoctor, exDoctor2], [exPatient],
    [exAppt], [], 4, 3, 2, 2, 1⟩

/-- The sample appointment after completion. -/
def exApptDone : Appointment :=
  ⟨1, 1, 1, "2024-01-10 09:30:00", "2024-01-10 10:00:00", "checkup", "Completed"⟩

/-- Treatment already recorded against the completed appointment. -/
def exTreatment : Treatment := ⟨1, 1, "flu", "rest"⟩

/-- Store whose single appointment is already `Completed` with one
treatment on record. -/
def exStoreDone : Store :=
  ⟨[exPatientUser, exDoctorUser], [exDoctor], [exPatient], [exApptDone],
    [exTreatment], 3, 2, 2, 2, 2⟩

/-- The sample doctor profile with `is_approved = false`. -/
def exDoctorUnapproved : Doctor := ⟨1, 2, true, false⟩

/-- Store whose doctor is active but not yet approved. -/
def exStoreUnapproved : Store :=
  ⟨[exPatientUser, exDoctorUser], [exDoctorUnapproved], [exPatient], [], [], 3, 2, 2, 2, 1⟩

/-! ### Order of rendered timestamp strings -/

theorem digitChar_toNat (n : Nat) (h : n < 10) : (Nat.digitChar n).toNat = 48 + n := by
  interval_cases n <;> rfl

theorem charListLe_self_cons (c : Char) (cs ds : List Char) :
    charListLe (c :: cs) (c :: ds) = charListLe cs ds := by
  simp [charListLe]

theorem charListLe_digit_cons {x y : Nat} (hx : x < 10) (hy : y < 10)
    (cs ds : List Char) :
    (charListLe (Nat.digitChar x :: cs) (Nat.digitChar y :: ds) = true) ↔
      (x < y ∨ (x = y ∧ charListLe cs ds = true)) := by
  simp only [charListLe, digitChar_toNat x hx, digitChar_toNat y hy,
    Bool.or_eq_true, Bool.and_eq_true, decide_eq_true_eq, beq_iff_eq]
  constructor
  · rintro (h | ⟨h1, h2⟩)
    · exact Or.inl (by omega)
    · exact Or.inr ⟨by omega, h2⟩
  · rintro (h | ⟨h1, h2⟩)
    · exact Or.inl (by omega)
    · exact Or.inr ⟨by omega, h2⟩

theorem lex_merge10 (x y : Nat) (L : Prop) :
    (x / 10 < y / 10 ∨ (x / 10 = y / 10 ∧ (x % 10 < y % 10 ∨ (x % 10 = y % 10 ∧ L)))) ↔
      (x < y ∨ (x = y ∧ L)) := by
  constructor
  · rintro (h | ⟨h1, (h2 | ⟨h3, h4⟩)⟩)
    · exact Or.inl (by omega)
    · exact Or.inl (by omega)
    · exact Or.inr ⟨by omega, h4⟩
  · rintro (h | ⟨h1, h2⟩)
    · by_cases hq : x / 10 < y / 10
      · exact Or.inl hq
      · exact Or.inr ⟨by omega, Or.inl (by omega)⟩
    · exact Or.inr ⟨by omega, Or.inr ⟨by omega, h2⟩⟩

theorem lex_merge100 (x y : Nat) (L : Prop) :
    (x / 100 < y / 100 ∨ (x / 100 = y / 100 ∧ (x % 100 < y % 100 ∨ (x % 100 = y % 100 ∧ L)))) ↔
      (x < y ∨ (x = y ∧ L)) := by
  constructor
  · rintro (h | ⟨h1, (h2 | ⟨h3, h4⟩)⟩)
    · exact Or.inl (by omega)
    · exact Or.inl (by omega)
    · exact Or.inr ⟨by omega, h4⟩
  · rintro (h | ⟨h1, h2⟩)
    · by_cases hq : x / 100 < y / 100
      · exact Or.inl hq
      · exact Or.inr ⟨by omega, Or.inl (by omega)⟩
    · exact Or.inr ⟨by omega, Or.inr ⟨by omega, h2⟩⟩

theorem daysInMonth_le (y mo : Nat) : daysInMonth y mo ≤ 31 := by
  unfold daysInMonth
  split
  · split <;> omega
  · split <;> omega

theorem valid_bounds {dt : DateTime} (h : dt.valid = true) :
    1 ≤ dt.year ∧ dt.year ≤ 9999 ∧ 1 ≤ dt.month ∧ dt.month ≤ 12 ∧
    1 ≤ dt.day ∧ dt.day ≤ 31 ∧ dt.hour ≤ 23 ∧ dt.minute ≤ 59 ∧
    dt.second ≤ 59 ∧ dt.microsecond ≤ 999999 := by
  have hm := daysInMonth_le dt.year dt.month
  simp only [DateTime.valid, Bool.and_eq_true, decide_eq_true_eq] at h
  omega

/-- The fixed zero-padded rendering is monotone: SQL string `<=` on two
rendered timestamps agrees with chronological order at whole-second
granularity. -/
theorem strftime_le_iff (a b : DateTime) (ha : a.valid = true) (hb : b.valid = true) :
    (strLe a.strftime b.strftime = true) ↔ a.keySec ≤ b.keySec := by
  obtain ⟨ay1, ay2, am1, am2, ad1, ad2, ah2, ami2, as2, au2⟩ := valid_bounds ha
  obtain ⟨cy1, cy2, cm1, cm2, cd1, cd2, ch2, cmi2, cs2, cu2⟩ := valid_bounds hb
  show charListLe (dtChars a) (dtChars b) = true ↔ a.keySec ≤ b.keySec
  simp only [dtChars]
  rw [charListLe_digit_cons (show a.year / 100 / 10 < 10 by omega) (show b.year / 100 / 10 < 10 by omega),
      charListLe_digit_cons (show a.year / 100 % 10 < 10 by omega) (show b.year / 100 % 10 < 10 by omega),
      charListLe_digit_cons (show a.year % 100 / 10 < 10 by omega) (show b.year % 100 / 10 < 10 by omega),
      charListLe_digit_cons (show a.year % 100 % 10 < 10 by omega) (show b.year % 100 % 10 < 10 by omega),
      charListLe_self_cons,
      charListLe_digit_cons (show a.month / 10 < 10 by omega) (show b.month / 10 < 10 by omega),
      charListLe_digit_cons (show a.month % 10 < 10 by omega) (show b.month % 10 < 10 by omega),
      charListLe_self_cons,
      charListLe_digit_cons (show a.day / 10 < 10 by omega) (show b.day / 10 < 10 by omega),
      charListLe_digit_cons (show a.day % 10 < 10 by omega) (show b.day % 10 < 10 by omega),
      charListLe_self_cons,
      charListLe_digit_cons (show a.hour / 10 < 10 by omega) (show b.hour / 10 < 10 by omega),
      charListLe_digit_cons (show a.hour % 10 < 10 by omega) (show b.hour % 10 < 10 by omega),
      charListLe_self_cons,
      charListLe_digit_cons (show a.minute / 10 < 10 by omega) (show b.minute / 10 < 10 by omega),
      charListLe_digit_cons (show a.minute % 10 < 10 by omega) (show b.minute % 10 < 10 by omega),
      charListLe_self_cons,
      charListLe_digit_cons (show a.second / 10 < 10 by omega) (show b.second / 10 < 10 by omega),
      charListLe_digit_cons (show a.second % 10 < 10 by omega) (show b.second % 10 < 10 by omega)]
  rw [show charListLe [] [] = true from rfl]
  simp only [eq_self_iff_true]
  rw [lex_merge10, lex_merge10, lex_merge100, lex_merge10, lex_merge10, lex_merge10,
      lex_merge10, lex_merge10]
  simp only [and_true, DateTime.keySec]
  omega

/-- The SQL range predicate evaluated on rendered strings computes the
half-open overlap test at whole-second granularity. -/
theorem overlapsStr_iff (e : Appointment) (c d x y : DateTime)
    (hc : c.valid = true) (hd : d.valid = true)
    (hx : x.valid = true) (hy : y.valid = true)
    (hst : e.start_datetime = c.strftime) (hen : e.end_datetime = d.strftime) :
    (overlapsStr e x.strftime y.strftime = true) ↔
      (x.keySec < d.keySec ∧ c.keySec < y.keySec) := by
  have h1 := strftime_le_iff d x hd hx
  have h2 := strftime_le_iff y c hy hc
  unfold overlapsStr
  rw [hst, hen]
  cases hb1 : strLe d.strftime x.strftime <;> cases hb2 : strLe y.strftime c.strftime <;>
    simp_all

/-! ### Every parse result is a valid datetime -/

theorem validate_some {dt dt' : DateTime} (h : validate dt = some dt') :
    dt' = dt ∧ dt'.valid = true := by
  by_cases hv : dt.valid = true <;> simp [validate, hv] at h
  exact ⟨h.symm, h ▸ hv⟩

theorem isoTime_valid {y mo d : Nat} {cs : List Char} {dt : DateTime}
    (h : isoTime y mo d cs = some dt) : dt.valid = true := by
  unfold isoTime at h
  repeat' split at h
  all_goals first
    | exact absurd h (by simp)
    | exact (validate_some h).2

theorem fromisoformat_valid {s : String} {dt : DateTime}
    (h : fromisoformat s = some dt) : dt.valid = true := by
  unfold fromisoformat at h
  repeat' split at h
  all_goals first
    | exact absurd h (by simp)
    | exact (validate_some h).2
    | exact isoTime_valid h

theorem strptimeYmdHms_valid {s : String} {dt : DateTime}
    (h : strptimeYmdHms s = some dt) : dt.valid = true := by
  unfold strptimeYmdHms at h
  split at h
  · exact (validate_some h).2
  · exact absurd h (by simp)

theorem strptimeYmdHm_valid {s : String} {dt : DateTime}
    (h : strptimeYmdHm s = some dt) : dt.valid = true := by
  unfold strptimeYmdHm at h
  split at h
  · exact (validate_some h).2
  · exact absurd h (by simp)

/-- Any datetime produced by `parse_datetime` satisfies the `datetime`
constructor bounds. -/
theorem parse_datetime_valid {s : String} {dt : DateTime}
    (h : parse_datetime s = some dt) : dt.valid = true := by
  unfold parse_datetime at h
  split at h
  · exact fromisoformat_valid h
  · split at h
    · rename_i dt' heq
      injection h with h2
      subst h2
      exact strptimeYmdHms_valid heq
    · exact strptimeYmdHm_valid h


/-! ### Helper lemmas about the handlers -/

/-- The approval action leaves the profile lookup intact apart from the
flag. -/
theorem doctor_profile_approve (st : Store) (uid : Nat) :
    doctor_profile (approveDoctor st uid) uid =
      (doctor_profile st uid).map (fun d => { d with is_approved := true }) := by
  show List.find? _ (st.doctors.map _) = (List.find? _ st.doctors).map _
  generalize st.doctors = l
  induction l with
  | nil => rfl
  | cons d ds ih =>
    cases h : d.user_id == uid <;>
      simp only [List.map_cons, List.find?_cons, h, cond_true, cond_false, ih] <;>
      simp [h, ih]

/-- On the successful path, `complete_appointment` flips the status and
appends the treatment in one step. -/
theorem complete_success_eq (st : Store) (caller : User) (aid : Nat)
    (diag presc : String) (doc : Doctor) (appt : Appointment)
    (hrole : caller.role = "doctor")
    (happt : st.appointments.find? (fun x => x.id == aid) = some appt)
    (hdoc : doctor_profile st caller.id = some doc)
    (hown : appt.doctor_id = doc.id) :
    complete_appointment st caller aid diag presc =
      (.completed,
        { st with
          appointments := st.appointments.map (fun x =>
            if x.id == aid then { x with status := "Completed" } else x),
          treatments := st.treatments ++ [⟨st.nextTreatmentId, appt.id, diag, presc⟩],
          nextTreatmentId := st.nextTreatmentId + 1 }) := by
  unfold complete_appointment
  rw [hrole]
  simp only [bne_self_eq_false, Bool.false_eq_true, if_false, happt, hdoc]
  rw [show (appt.doctor_id != doc.id) = false by simp [hown]]
  rfl

/-- Every non-`completed` outcome of `complete_appointment` leaves the
store untouched. -/
theorem complete_fail_no_change (st : Store) (caller : User) (aid : Nat)
    (d p : String) :
    (complete_appointment st caller aid d p).1 ≠ .completed →
    (complete_appointment st caller aid d p).2 = st := by
  unfold complete_appointment
  split
  · intro _; rfl
  · split
    · intro _; rfl
    · split
      · intro _; rfl
      · split
        · intro _; rfl
        · intro h; exact absurd rfl h

/-- The mapped appointment list of a completion carries status
`Completed` on the completed id. -/
theorem complete_map_status (st : Store) (aid : Nat) :
    ∀ a' ∈ st.appointments.map (fun x =>
        if x.id == aid then { x with status := "Completed" } else x),
      a'.id = aid → a'.status = "Completed" := by
  intro a' ha' hid
  obtain ⟨x, hx, hmap⟩ := List.mem_map.mp ha'
  by_cases h : (x.id == aid) = true
  · rw [← hmap]
    simp [h]
  · exfalso
    simp only [h, if_false, Bool.false_eq_true] at hmap
    rw [← hmap] at hid
    exact h (beq_iff_eq.mpr hid)

/-- Appending the new treatment raises the per-appointment count by
exactly one. -/
theorem treatments_count_append (ts : List Treatment) (t : Treatment) (aid : Nat)
    (h : t.appointment_id = aid) :
    ((ts ++ [t]).filter (fun x => x.appointment_id == aid)).length =
      (ts.filter (fun x => x.appointment_id == aid)).length + 1 := by
  simp [List.filter_append, List.filter, h]

/-! ### The claims -/

/-- C1 (amended).  For a patient booking request on an existing doctor
with both instants parseable and strictly ordered, and every stored
`Booked` row of that doctor being a rendered whole-second interval: the
booking is accepted iff no stored `Booked` interval [c,d) of that
doctor overlaps the request at whole-second granularity, i.e. iff no
row satisfies `trunc(a) < d ∧ c < trunc(b)` (`keySec` comparison).  In
particular touching intervals never conflict.  (The original claim,
with the overlap evaluated on the full parsed instants including
microseconds, is refuted by `C1_subsecond_overlap_accepted`.) -/
theorem C1_booking_accept_iff_whole_second_overlap
    (st : Store) (caller : User) (did : Nat) (sRaw eRaw reason : String)
    (patient : Patient) (doctor : Doctor) (a b : DateTime)
    (hrole : caller.role = "patient")
    (hpat : patient_profile st caller.id = some patient)
    (hdoc : st.doctors.find? (fun d => d.id == did) = some doctor)
    (ha : parse_datetime sRaw = some a) (hb : parse_datetime eRaw = some b)
    (hord : a.key < b.key)
    (hstored : ∀ e ∈ st.appointments, e.doctor_id = did → e.status = "Booked" →
        ∃ c d : DateTime, c.valid = true ∧ d.valid = true ∧
          c.microsecond = 0 ∧ d.microsecond = 0 ∧
          e.start_datetime = c.strftime ∧ e.end_datetime = d.strftime) :
    ((book_appointment st caller did sRaw eRaw reason).1 = .booked ↔
      ¬ ∃ e ∈ st.appointments, e.doctor_id = did ∧ e.status = "Booked" ∧
        ∃ c d : DateTime, c.valid = true ∧ d.valid = true ∧
          c.microsecond = 0 ∧ d.microsecond = 0 ∧
          e.start_datetime = c.strftime ∧ e.end_datetime = d.strftime ∧
          a.keySec < d.keySec ∧ c.keySec < b.keySec) := by
  have hdid : doctor.id = did := by
    have := List.find?_some hdoc
    simpa using this
  have hav : a.valid = true := parse_datetime_valid ha
  have hbv : b.valid = true := parse_datetime_valid hb
  unfold book_appointment
  rw [hrole]
  simp only [bne_self_eq_false, Bool.false_eq_true, if_false, hpat, hdoc, ha, hb]
  rw [show dtLe b a = false by simp only [dtLe, decide_eq_false_iff_not]; omega]
  simp only [Bool.false_eq_true, if_false]
  cases hfind : st.appointments.find? (fun e => e.doctor_id == doctor.id &&
      e.status == "Booked" && overlapsStr e a.strftime b.strftime) with
  | some e =>
    simp only [hfind]
    constructor
    · intro hcontra
      exact absurd hcontra (by simp)
    · intro hno
      exfalso
      have hmem := List.mem_of_find?_eq_some hfind
      have hpe := List.find?_some hfind
      simp only [Bool.and_eq_true, beq_iff_eq] at hpe
      obtain ⟨⟨hdid', hstat⟩, hov⟩ := hpe
      obtain ⟨c, d, hcv, hdv, hcu, hdu, hcs, hds⟩ :=
        hstored e hmem (hdid' ▸ hdid) hstat
      have hover := (overlapsStr_iff e c d a b hcv hdv hav hbv hcs hds).mp hov
      exact hno ⟨e, hmem, hdid' ▸ hdid, hstat, c, d, hcv, hdv, hcu, hdu, hcs, hds,
        hover.1, hover.2⟩
  | none =>
    simp only [hfind]
    constructor
    · intro _
      rintro ⟨e, hmem, hedid, hestat, c, d, hcv, hdv, hcu, hdu, hcs, hds, ho1, ho2⟩
      have hnone := List.find?_eq_none.mp hfind e hmem
      apply hnone
      simp only [Bool.and_eq_true, beq_iff_eq]
      exact ⟨⟨by rw [hedid, hdid], hestat⟩,
        (overlapsStr_iff e c d a b hcv hdv hav hbv hcs hds).mpr ⟨ho1, ho2⟩⟩
    · intro _
      trivial

/-- C1, counterexample to the claim as stated.  The stored `Booked`
interval of doctor 1 is [09:30:00, 10:00:00); the request parses to
[09:30:00.200000, 09:30:00.500000), which satisfies `a < d ∧ c < b` on
the parsed instants (the last two conjuncts), so the claim demands
rejection — yet the handler books it: rendering drops the fractional
seconds, both rendered bounds equal "09:30:00", and the string-level
conflict query sees a touching, non-overlapping interval. -/
theorem C1_subsecond_overlap_accepted :
    parse_datetime "2024-01-10T09:30:00.200" = some ⟨2024, 1, 10, 9, 30, 0, 200000⟩ ∧
    parse_datetime "2024-01-10T09:30:00.500" = some ⟨2024, 1, 10, 9, 30, 0, 500000⟩ ∧
    exAppt.start_datetime = DateTime.strftime ⟨2024, 1, 10, 9, 30, 0, 0⟩ ∧
    exAppt.end_datetime = DateTime.strftime ⟨2024, 1, 10, 10, 0, 0, 0⟩ ∧
    (⟨2024, 1, 10, 9, 30, 0, 200000⟩ : DateTime).key < (⟨2024, 1, 10, 10, 0, 0, 0⟩ : DateTime).key ∧
    (⟨2024, 1, 10, 9, 30, 0, 0⟩ : DateTime).key < (⟨2024, 1, 10, 9, 30, 0, 500000⟩ : DateTime).key ∧
    (book_appointment exStore exPatientUser 1
      "2024-01-10T09:30:00.200" "2024-01-10T09:30:00.500" "again").1 = .booked := by
  decide

/-- C1, witness: on a store with no appointments a well-formed request
is accepted, by the amended theorem. -/
theorem C1_booking_accept_iff_whole_second_overlap_witness :
    (book_appointment exStoreEmpty exPatientUser 1
      "2024-01-10 09:00:00" "2024-01-10 09:30:00" "checkup").1 = .booked :=
  (C1_booking_accept_iff_whole_second_overlap exStoreEmpty exPatientUser 1
    "2024-01-10 09:00:00" "2024-01-10 09:30:00" "checkup" exPatient exDoctor
    ⟨2024, 1, 10, 9, 0, 0, 0⟩ ⟨2024, 1, 10, 9, 30, 0, 0⟩
    rfl rfl rfl (by decide) (by decide) (by decide)
    (by simp [exStoreEmpty])).mpr (by simp [exStoreEmpty])

/-- C2.  When the string-level conflict query of `book_appointment`
finds an existing `Booked` row of the target doctor overlapping the
request, the handler rejects with the scheduling-conflict outcome and
returns the store exactly unchanged: nothing inserted, nothing
modified. -/
theorem C2_conflict_rejected_store_unchanged
    (st : Store) (caller : User) (did : Nat) (sRaw eRaw reason : String)
    (patient : Patient) (doctor : Doctor) (a b : DateTime)
    (hrole : caller.role = "patient")
    (hpat : patient_profile st caller.id = some patient)
    (hdoc : st.doctors.find? (fun d => d.id == did) = some doctor)
    (ha : parse_datetime sRaw = some a) (hb : parse_datetime eRaw = some b)
    (hord : a.key < b.key)
    (hconf : ∃ e ∈ st.appointments,
        (e.doctor_id == doctor.id && e.status == "Booked" &&
          overlapsStr e a.strftime b.strftime) = true) :
    book_appointment st caller did sRaw eRaw reason = (.slotConflict, st) := by
  unfold book_appointment
  rw [hrole]
  simp only [bne_self_eq_false, Bool.false_eq_true, if_false, hpat, hdoc, ha, hb]
  rw [show dtLe b a = false by simp only [dtLe, decide_eq_false_iff_not]; omega]
  simp only [Bool.false_eq_true, if_false]
  have hsome : (st.appointments.find? (fun e => e.doctor_id == doctor.id &&
      e.status == "Booked" && overlapsStr e a.strftime b.strftime)).isSome :=
    List.find?_isSome.mpr hconf
  obtain ⟨e', he'⟩ := Option.isSome_iff_exists.mp hsome
  rw [he']

/-- C2, witness: a 09:45–10:15 request against the stored 09:30–10:00
booking is rejected and the store is returned unchanged. -/
theorem C2_conflict_rejected_store_unchanged_witness :
    book_appointment exStore exPatientUser 1
      "2024-01-10 09:45:00" "2024-01-10 10:15:00" "checkup" = (.slotConflict, exStore) :=
  C2_conflict_rejected_store_unchanged exStore exPatientUser 1
    "2024-01-10 09:45:00" "2024-01-10 10:15:00" "checkup" exPatient exDoctor
    ⟨2024, 1, 10, 9, 45, 0, 0⟩ ⟨2024, 1, 10, 10, 15, 0, 0⟩
    rfl rfl rfl (by decide) (by decide) (by decide) (by decide)

/-- C3.  If either bound fails to parse, or both parse but the end is
not strictly after the start, the booking request is rejected as the
validation outcome with the store unchanged; and the parsing helper is
total, yielding either `none` or a constructor-valid datetime on every
input string. -/
theorem C3_invalid_times_rejected
    (st : Store) (caller : User) (did : Nat) (sRaw eRaw reason : String)
    (patient : Patient) (doctor : Doctor)
    (hrole : caller.role = "patient")
    (hpat : patient_profile st caller.id = some patient)
    (hdoc : st.doctors.find? (fun d => d.id == did) = some doctor)
    (hbad : parse_datetime sRaw = none ∨ parse_datetime eRaw = none ∨
        ∃ a b, parse_datetime sRaw = some a ∧ parse_datetime eRaw = some b ∧
          b.key ≤ a.key) :
    book_appointment st caller did sRaw eRaw reason = (.invalidTimeRange, st) ∧
    (∀ s : String, parse_datetime s = none ∨
      ∃ dt, parse_datetime s = some dt ∧ dt.valid = true) := by
  constructor
  · unfold book_appointment
    rw [hrole]
    simp only [bne_self_eq_false, Bool.false_eq_true, if_false, hpat, hdoc]
    rcases hbad with h | h | ⟨a, b, ha, hb, hle⟩
    · rw [h]
    · rw [h]
      cases parse_datetime sRaw <;> rfl
    · rw [ha, hb]
      simp [dtLe, hle]
  · intro s
    cases hp : parse_datetime s with
    | none => exact Or.inl rfl
    | some dt => exact Or.inr ⟨dt, rfl, parse_datetime_valid hp⟩

/-- C3, witness: an unparsable start string is rejected without any
store change. -/
theorem C3_invalid_times_rejected_witness :
    book_appointment exStore exPatientUser 1
      "not-a-datetime" "2024-01-10 10:00:00" "checkup" = (.invalidTimeRange, exStore) :=
  (C3_invalid_times_rejected exStore exPatientUser 1
    "not-a-datetime" "2024-01-10 10:00:00" "checkup" exPatient exDoctor
    rfl rfl rfl (Or.inl (by decide))).1

/-- C4.  Registration with a fresh (handle, email) pair creates exactly
one `patient`-role identity with a hashed credential and exactly one
patient profile referencing the new identity id, all other tables
untouched; with a colliding handle or email it fails and returns the
store unchanged. -/
theorem C4_registration (st : Store) (handle email pw name : String) :
    ((∀ x ∈ st.users, x.username ≠ pyStrip handle ∧ x.email ≠ pyStrip email) →
      register st handle email pw name =
        (.success,
          { st with
            users := st.users ++
              [⟨st.nextUserId, pyStrip handle, pyStrip email,
                generate_password_hash pw, pyStrip name, "patient"⟩],
            patients := st.patients ++ [⟨st.nextPatientId, st.nextUserId⟩],
            nextUserId := st.nextUserId + 1,
            nextPatientId := st.nextPatientId + 1 })) ∧
    ((∃ x ∈ st.users, x.username = pyStrip handle ∨ x.email = pyStrip email) →
      register st handle email pw name = (.duplicate, st)) := by
  constructor
  · intro hfresh
    have hnone : st.users.find?
        (fun u => u.username == pyStrip handle || u.email == pyStrip email) = none := by
      rw [List.find?_eq_none]
      intro x hx
      obtain ⟨h1, h2⟩ := hfresh x hx
      simp [h1, h2]
    simp only [register, hnone, Option.isSome_none, Bool.false_eq_true, if_false]
  · rintro ⟨x, hx, hor⟩
    have hsome : (st.users.find?
        (fun u => u.username == pyStrip handle || u.email == pyStrip email)).isSome :=
      List.find?_isSome.mpr ⟨x, hx, by rcases hor with h | h <;> simp [h]⟩
    obtain ⟨u', hu'⟩ := Option.isSome_iff_exists.mp hsome
    simp only [register, hu', Option.isSome_some, if_true]

/-- C4, witness: registering a fresh pair on the sample store appends
exactly the new identity and profile, and re-registering the existing
handle fails with no change. -/
theorem C4_registration_witness :
    register exStore "carol" "carol@example.com" "pw3" "Carol C" =
      (.success,
        { exStore with
          users := exStore.users ++
            [⟨3, "carol", "carol@example.com", generate_password_hash "pw3",
              "Carol C", "patient"⟩],
          patients := exStore.patients ++ [⟨2, 3⟩],
          nextUserId := 4,
          nextPatientId := 3 }) ∧
    register exStore "alice" "other@example.com" "pw3" "Alice Again" =
      (.duplicate, exStore) :=
  ⟨(C4_registration exStore "carol" "carol@example.com" "pw3" "Carol C").1 (by decide),
   (C4_registration exStore "alice" "other@example.com" "pw3" "Alice Again").2
     ⟨exPatientUser, by decide, Or.inl (by decide)⟩⟩

/-- C5.  A completing POST by the owning doctor flips the appointment
status to `Completed` and appends exactly one `Treatment` row
referencing that appointment id, in a single state transition; the
per-appointment treatment count rises by exactly one, every row with
the completed id carries status `Completed`, and every non-completed
outcome leaves the store untouched (both writes land together or not at
all). -/
theorem C5_completion_atomic
    (st : Store) (caller : User) (aid : Nat) (diag presc : String)
    (doc : Doctor) (appt : Appointment)
    (hrole : caller.role = "doctor")
    (happt : st.appointments.find? (fun x => x.id == aid) = some appt)
    (hdoc : doctor_profile st caller.id = some doc)
    (hown : appt.doctor_id = doc.id) :
    complete_appointment st caller aid diag presc =
      (.completed,
        { st with
          appointments := st.appointments.map (fun x =>
            if x.id == aid then { x with status := "Completed" } else x),
          treatments := st.treatments ++ [⟨st.nextTreatmentId, appt.id, diag, presc⟩],
          nextTreatmentId := st.nextTreatmentId + 1 }) ∧
    ((complete_appointment st caller aid diag presc).2.treatments.filter
        (fun t => t.appointment_id == appt.id)).length =
      (st.treatments.filter (fun t => t.appointment_id == appt.id)).length + 1 ∧
    (∀ a' ∈ (complete_appointment st caller aid diag presc).2.appointments,
      a'.id = aid → a'.status = "Completed") ∧
    (∀ (st2 : Store) (c2 : User) (aid2 : Nat) (d2 p2 : String),
      (complete_appointment st2 c2 aid2 d2 p2).1 ≠ .completed →
      (complete_appointment st2 c2 aid2 d2 p2).2 = st2) := by
  have heq := complete_success_eq st caller aid diag presc doc appt hrole happt hdoc hown
  refine ⟨heq, ?_, ?_, complete_fail_no_change⟩
  · rw [heq]
    exact treatments_count_append st.treatments
      ⟨st.nextTreatmentId, appt.id, diag, presc⟩ appt.id rfl
  · rw [heq]
    exact complete_map_status st aid

/-- C5, witness: completing the sample booked appointment records the
treatment and the flip together. -/
theorem C5_completion_atomic_witness :
    complete_appointment exStore exDoctorUser 1 "flu" "rest" =
      (.completed,
        { exStore with
          appointments := exStore.appointments.map (fun x =>
            if x.id == 1 then { x with status := "Completed" } else x),
          treatments := exStore.treatments ++ [⟨1, 1, "flu", "rest"⟩],
          nextTreatmentId := 2 }) :=
  (C5_completion_atomic exStore exDoctorUser 1 "flu" "rest" exDoctor exAppt
    rfl rfl rfl rfl).1

/-- C6.  Completion authorization: a caller without the doctor role is
rejected with the access-denied outcome whether or not the appointment
exists (the role check precedes and is independent of the existence
check); a doctor who does not own an existing appointment is rejected
with the not-authorized outcome; both leave the store unchanged, and
both outcomes are distinct from the not-found response. -/
theorem C6_completion_authorization :
    (∀ (st : Store) (caller : User) (aid : Nat) (d p : String),
      caller.role ≠ "doctor" →
      complete_appointment st caller aid d p = (.accessDenied, st)) ∧
    (∀ (st : Store) (caller : User) (aid : Nat) (d p : String)
        (doc : Doctor) (appt : Appointment),
      caller.role = "doctor" →
      st.appointments.find? (fun x => x.id == aid) = some appt →
      doctor_profile st caller.id = some doc →
      appt.doctor_id ≠ doc.id →
      complete_appointment st caller aid d p = (.notAuthorized, st)) ∧
    (CompleteResult.accessDenied ≠ CompleteResult.notFound ∧
     CompleteResult.notAuthorized ≠ CompleteResult.notFound ∧
     CompleteResult.accessDenied ≠ CompleteResult.notAuthorized) := by
  refine ⟨?_, ?_, by simp, by simp, by simp⟩
  · intro st caller aid d p hrole
    unfold complete_appointment
    rw [show (caller.role != "doctor") = true by simp [hrole]]
    rfl
  · intro st caller aid d p doc appt hrole happt hdoc hown
    unfold complete_appointment
    rw [hrole]
    simp only [bne_self_eq_false, Bool.false_eq_true, if_false, happt, hdoc]
    rw [show (appt.doctor_id != doc.id) = true by simp [hown]]
    rfl

/-- C6, witness: on the two-doctor store, a patient caller is denied by
role and the non-owning doctor is rejected as not authorized, with no
state change. -/
theorem C6_completion_authorization_witness :
    complete_appointment exStore2 exPatientUser 1 "d" "p" = (.accessDenied, exStore2) ∧
    complete_appointment exStore2 exDoctorUser2 1 "d" "p" = (.notAuthorized, exStore2) :=
  ⟨C6_completion_authorization.1 exStore2 exPatientUser 1 "d" "p" (by decide),
   C6_completion_authorization.2.1 exStore2 exDoctorUser2 1 "d" "p" exDoctor2 exAppt
     rfl rfl rfl (by decide)⟩

/-- C7.  Re-completion is unguarded: a repeated completing POST by the
owning doctor against an appointment already in status `Completed` is
accepted, leaves the status `Completed`, and appends one more
`Treatment` referencing the same appointment id, so treatments
accumulate. -/
theorem C7_recompletion_unguarded
    (st : Store) (caller : User) (aid : Nat) (diag presc : String)
    (doc : Doctor) (appt : Appointment)
    (hrole : caller.role = "doctor")
    (happt : st.appointments.find? (fun x => x.id == aid) = some appt)
    (hdoc : doctor_profile st caller.id = some doc)
    (hown : appt.doctor_id = doc.id)
    (hdone : appt.status = "Completed") :
    (complete_appointment st caller aid diag presc).1 = .completed ∧
    ((complete_appointment st caller aid diag presc).2.treatments.filter
        (fun t => t.appointment_id == appt.id)).length =
      (st.treatments.filter (fun t => t.appointment_id == appt.id)).length + 1 ∧
    (∀ a' ∈ (complete_appointment st caller aid diag presc).2.appointments,
      a'.id = aid → a'.status = "Completed") := by
  have heq := complete_success_eq st caller aid diag presc doc appt hrole happt hdoc hown
  refine ⟨by rw [heq], ?_, ?_⟩
  · rw [heq]
    exact treatments_count_append st.treatments
      ⟨st.nextTreatmentId, appt.id, diag, presc⟩ appt.id rfl
  · rw [heq]
    exact complete_map_status st aid

/-- C7, witness: re-completing the already-completed sample appointment
is accepted and raises its treatment count from one to two. -/
theorem C7_recompletion_unguarded_witness :
    (complete_appointment exStoreDone exDoctorUser 1 "cold" "tea").1 = .completed ∧
    ((complete_appointment exStoreDone exDoctorUser 1 "cold" "tea").2.treatments.filter
        (fun t => t.appointment_id == exApptDone.id)).length =
      (exStoreDone.treatments.filter
        (fun t => t.appointment_id == exApptDone.id)).length + 1 :=
  ⟨(C7_recompletion_unguarded exStoreDone exDoctorUser 1 "cold" "tea" exDoctor exApptDone
      rfl rfl rfl rfl rfl).1,
   (C7_recompletion_unguarded exStoreDone exDoctorUser 1 "cold" "tea" exDoctor exApptDone
      rfl rfl rfl rfl rfl).2.1⟩

/-- C8.  With a matching doctor-role identity and a correct credential,
login is gated on the doctor profile: a missing profile, an unapproved
profile, and a deactivated profile each produce their own rejection
(all distinct from each other and from the generic invalid-credentials
signal); an approved and active profile logs in; and flipping only
`is_approved` to true (the spec-modelled administrator action), with
`is_active` already true, turns the same rejected attempt into a
success. -/
theorem C8_doctor_login_gating
    (st : Store) (identifier pw : String) (u : User)
    (hu : find_user st (pyStrip identifier) = some u)
    (hrole : u.role = "doctor")
    (hpw : check_password_hash pw u.password_hash = true) :
    (doctor_profile st u.id = none → login st identifier pw = .doctorProfileMissing) ∧
    (∀ d, doctor_profile st u.id = some d → d.is_approved = false →
      login st identifier pw = .pendingApproval) ∧
    (∀ d, doctor_profile st u.id = some d → d.is_approved = true → d.is_active = false →
      login st identifier pw = .deactivated) ∧
    (∀ d, doctor_profile st u.id = some d → d.is_approved = true → d.is_active = true →
      login st identifier pw = .success u.id u.role) ∧
    (∀ d, doctor_profile st u.id = some d → d.is_active = true →
      login (approveDoctor st u.id) identifier pw = .success u.id u.role) ∧
    (LoginResult.doctorProfileMissing ≠ LoginResult.pendingApproval ∧
     LoginResult.pendingApproval ≠ LoginResult.deactivated ∧
     LoginResult.doctorProfileMissing ≠ LoginResult.deactivated ∧
     LoginResult.doctorProfileMissing ≠ LoginResult.invalidCredentials ∧
     LoginResult.pendingApproval ≠ LoginResult.invalidCredentials ∧
     LoginResult.deactivated ≠ LoginResult.invalidCredentials) := by
  refine ⟨?_, ?_, ?_, ?_, ?_, by simp, by simp, by simp, by simp, by simp, by simp⟩
  · intro hnone
    simp [login, hu, hpw, hrole, hnone]
  · intro d hd hap
    simp [login, hu, hpw, hrole, hd, hap]
  · intro d hd hap hac
    simp [login, hu, hpw, hrole, hd, hap, hac]
  · intro d hd hap hac
    simp [login, hu, hpw, hrole, hd, hap, hac]
  · intro d hd hac
    have hu2 : find_user (approveDoctor st u.id) (pyStrip identifier) = some u := hu
    have hd2 : doctor_profile (approveDoctor st u.id) u.id =
        some { d with is_approved := true } := by
      rw [doctor_profile_approve, hd]
      rfl
    simp [login, hu2, hpw, hrole, hd2, hac]

/-- C8, witness: the unapproved sample doctor is rejected with the
approval-pending message despite the correct credential, and succeeds
the moment the approval flag alone is flipped. -/
theorem C8_doctor_login_gating_witness :
    login exStoreUnapproved "drbob" "pw2" = .pendingApproval ∧
    login (approveDoctor exStoreUnapproved 2) "drbob" "pw2" = .success 2 "doctor" :=
  ⟨(C8_doctor_login_gating exStoreUnapproved "drbob" "pw2" exDoctorUser
      rfl rfl rfl).2.1 exDoctorUnapproved rfl rfl,
   (C8_doctor_login_gating exStoreUnapproved "drbob" "pw2" exDoctorUser
      rfl rfl rfl).2.2.2.2.1 exDoctorUnapproved rfl rfl⟩

/-- C9.  A login attempt whose identifier matches no identity and one
whose identifier matches but whose credential check fails produce the
same generic invalid-credentials outcome — the observer cannot tell
"no such user" from "wrong password". -/
theorem C9_uniform_invalid_credentials
    (st : Store) (id1 p1 id2 p2 : String) (u : User)
    (h1 : find_user st (pyStrip id1) = none)
    (h2 : find_user st (pyStrip id2) = some u)
    (h3 : check_password_hash p2 u.password_hash = false) :
    login st id1 p1 = login st id2 p2 ∧
    login st id1 p1 = .invalidCredentials := by
  have e1 : login st id1 p1 = .invalidCredentials := by
    simp [login, h1]
  have e2 : login st id2 p2 = .invalidCredentials := by
    simp [login, h2, h3]
  exact ⟨e1.trans e2.symm, e1⟩

/-- C9, witness: an unknown identifier and a wrong password against the
sample store yield literally the same outcome. -/
theorem C9_uniform_invalid_credentials_witness :
    login exStore "nobody" "whatever" = login exStore "alice" "wrongpw" ∧
    login exStore "nobody" "whatever" = .invalidCredentials :=
  C9_uniform_invalid_credentials exStore "nobody" "whatever" "alice" "wrongpw"
    exPatientUser rfl rfl rfl

/-- C10 (amended).  For datetimes at whole-second granularity
(microsecond = 0), SQL string comparison of the fixed zero-padded
renders agrees with chronological comparison; hence for stored rows
whose bounds are such renders, the string-level conflict predicate
computes exactly the half-open overlap test `a < d ∧ c < b` over the
instants truncated to whole seconds (`keySec`).  (The unrestricted
claim, over all datetimes, is refuted by
`C10_microsecond_disagreement`.) -/
theorem C10_string_conflict_refines_instants :
    (∀ a b : DateTime, a.valid = true → b.valid = true →
      a.microsecond = 0 → b.microsecond = 0 →
      ((strLe a.strftime b.strftime = true) ↔ a.key ≤ b.key)) ∧
    (∀ (e : Appointment) (c d x y : DateTime),
      c.valid = true → d.valid = true → x.valid = true → y.valid = true →
      c.microsecond = 0 → d.microsecond = 0 →
      e.start_datetime = c.strftime → e.end_datetime = d.strftime →
      ((overlapsStr e x.strftime y.strftime = true) ↔
        (x.keySec < d.keySec ∧ c.keySec < y.keySec))) := by
  constructor
  · intro a b ha hb hau hbu
    rw [strftime_le_iff a b ha hb]
    simp only [DateTime.key, hau, hbu]
    omega
  · intro e c d x y hc hd hx hy hcu hdu hst hen
    exact overlapsStr_iff e c d x y hc hd hx hy hst hen

/-- C10, counterexample to the unrestricted claim: two valid datetimes
in strict chronological order (they differ only in microseconds) have
identical renders, so lexicographic comparison of the rendered strings
reports them equal (`≤` holds in the reversed direction) and does not
agree with the chronological comparison. -/
theorem C10_microsecond_disagreement :
    (⟨2024, 1, 10, 9, 30, 0, 0⟩ : DateTime).valid = true ∧
    (⟨2024, 1, 10, 9, 30, 0, 500000⟩ : DateTime).valid = true ∧
    (⟨2024, 1, 10, 9, 30, 0, 0⟩ : DateTime).key <
      (⟨2024, 1, 10, 9, 30, 0, 500000⟩ : DateTime).key ∧
    DateTime.strftime ⟨2024, 1, 10, 9, 30, 0, 0⟩ =
      DateTime.strftime ⟨2024, 1, 10, 9, 30, 0, 500000⟩ ∧
    strLe (DateTime.strftime ⟨2024, 1, 10, 9, 30, 0, 500000⟩)
      (DateTime.strftime ⟨2024, 1, 10, 9, 30, 0, 0⟩) = true := by
  decide

/-- C10, witness: the order agreement evaluated at 09:30:00 versus
10:00:00 on 2024-01-10. -/
theorem C10_string_conflict_refines_instants_witness :
    (strLe (DateTime.strftime ⟨2024, 1, 10, 9, 30, 0, 0⟩)
        (DateTime.strftime ⟨2024, 1, 10, 10, 0, 0, 0⟩) = true) ↔
      (⟨2024, 1, 10, 9, 30, 0, 0⟩ : DateTime).key ≤
        (⟨2024, 1, 10, 10, 0, 0, 0⟩ : DateTime).key :=
  C10_string_conflict_refines_instants.1
    ⟨2024, 1, 10, 9, 30, 0, 0⟩ ⟨2024, 1, 10, 10, 0, 0, 0⟩
    (by decide) (by decide) rfl rfl

end HMS
